import Mathlib

/-!
Verification of the BIST 100 vs S&P 500 investment comparison program
(src/main.py).

The program fetches equity price series, a USD/TRY exchange-rate series and
four macroeconomic series, aggregates rates, and compares inflation-adjusted
returns of the two indices.  We embed the arithmetic over the real numbers
(Python floats become reals; Python division by zero, which raises, is
modelled by total real division) and the control flow over explicit
Option-valued fetch results: a download that raises inside a try/except is
modelled as a fetch result of none.  Fractional powers (Python **) become
real rpow.  The orchestration in main is embedded as a trace of externally
visible events computed from an environment that fixes the outcome of each
remote fetch.
-/

namespace BistSp500

/-- src/main.py lines 17-19: real return adjusted for inflation. -/
noncomputable def calculate_real_return (nominal_return inflation_rate : ℝ) : ℝ :=
  (1 + nominal_return) / (1 + inflation_rate) - 1

/-- src/main.py lines 22-51: nominal and real returns and final investment
value.  The yf.download call is replaced by its outcome fetched (none means
the download raised; the except branch returns the triple of Nones).  The
date arithmetic (end_date - start_date).days is an integer number of days.
The Python tuple of three possibly-None floats is an explicit triple of
options, so that mixed triples are representable. -/
noncomputable def calculate_returns (fetched : Option (List ℝ))
    (initial_investment : ℝ) (days : ℤ) (inflation_rate interest_rate : ℝ) :
    Option ℝ × Option ℝ × Option ℝ :=
  match fetched with
  | none => (none, none, none)
  | some data =>
    if data.length < 2 then (none, none, none)
    else
      let initial_price := data.headI
      let final_price := data.getLastD 0
      let total_return := (final_price - initial_price) / initial_price
      let years : ℝ := (days : ℝ) / 365.25
      let annual_return := (1 + total_return) ^ (1 / years) - 1
      let real_annual_return := calculate_real_return annual_return inflation_rate
      let final_value := initial_investment * (1 + real_annual_return) ^ years
      (some total_return, some real_annual_return, some final_value)

/-- Mean of a list of reals, as pandas mean over the non-null entries. -/
noncomputable def listMean (xs : List ℝ) : ℝ := xs.sum / xs.length

/-- pandas pct_change: the series of period-over-period relative changes
x_t / x_(t-1) - 1 for every consecutive pair; the leading NaN row is
dropped (pandas mean skips it). -/
noncomputable def pct_changes (xs : List ℝ) : List ℝ :=
  (xs.zip xs.tail).map fun p => p.2 / p.1 - 1

/-- src/main.py lines 92-93: inflation series aggregation,
series.pct_change().mean() * 12. -/
noncomputable def aggregate_inflation (xs : List ℝ) : ℝ :=
  listMean (pct_changes xs) * 12

/-- src/main.py lines 94-95: interest-rate series aggregation,
series.mean() / 100. -/
noncomputable def aggregate_interest (xs : List ℝ) : ℝ :=
  listMean xs / 100

/-- src/main.py line 79: initial_investment_usd = initial_investment_tl /
initial_usd_rate. -/
noncomputable def convert_to_usd (amount rate : ℝ) : ℝ := amount / rate

/-- src/main.py lines 108-109: final value converted back,
final_usd * final_usd_rate. -/
noncomputable def convert_to_try (amount rate : ℝ) : ℝ := amount * rate

/-- Externally visible steps of a run of main: remote fetches, console
messages, the results report and the comparison chart. -/
inductive Event where
  | fetchCurrency : Event
  | fetchFred : String → Event
  | fetchEquity : String → Event
  | printMessage : String → Event
  | presentResults : Event
  | showChart : Event
deriving DecidableEq

/-- Outcome of every remote fetch a run of main can perform, plus the user
inputs.  A download that raises is none; a download that succeeds yields the
Close column as a list.  days is (end_date - start_date).days. -/
structure Env where
  usdtry : Option (List ℝ)
  turkish_inflation : Option (List ℝ)
  us_inflation : Option (List ℝ)
  turkish_interest : Option (List ℝ)
  us_interest : Option (List ℝ)
  bist : Option (List ℝ)
  sp500 : Option (List ℝ)
  initial_investment_tl : ℝ
  days : ℤ

/-- src/main.py lines 53-133: the orchestration, as the list of externally
visible events a run with fetch outcomes e produces, in program order.
Lines 65-73: currency fetch, aborting on error or fewer than 2 points;
lines 82-89: the four FRED fetches, aborting if any is none; lines 92-95:
rate aggregation; lines 98-104: the two equity evaluations (each one
performs its own download inside calculate_returns); lines 106-133: results
are presented only when both first components are not None, else an error
message. -/
noncomputable def mainTrace (e : Env) : List Event :=
  Event.fetchCurrency ::
  match e.usdtry with
  | none => [Event.printMessage "USD/TRY data download error"]
  | some usdtry =>
    if usdtry.length < 2 then [Event.printMessage "Insufficient USD/TRY data found"]
    else
      let initial_usd_rate := usdtry.headI
      let initial_investment_usd := convert_to_usd e.initial_investment_tl initial_usd_rate
      Event.fetchFred "TURCPIALLMINMEI" :: Event.fetchFred "CPIAUCSL" ::
      Event.fetchFred "IR3TIB01TRM156N" :: Event.fetchFred "FEDFUNDS" ::
      match e.turkish_inflation, e.us_inflation, e.turkish_interest, e.us_interest with
      | some ti, some ui, some tir, some uir =>
        let turkish_inflation_rate := aggregate_inflation ti
        let us_inflation_rate := aggregate_inflation ui
        let turkish_interest_rate := aggregate_interest tir
        let us_interest_rate := aggregate_interest uir
        Event.fetchEquity "XU100.IS" :: Event.fetchEquity "^GSPC" ::
        (let bistResult := calculate_returns e.bist initial_investment_usd e.days
            turkish_inflation_rate turkish_interest_rate
         let sp500Result := calculate_returns e.sp500 initial_investment_usd e.days
            us_inflation_rate us_interest_rate
         if bistResult.1.isSome && sp500Result.1.isSome then
           [Event.presentResults, Event.showChart]
         else
           [Event.printMessage "An error occurred during the calculations."])
      | _, _, _, _ => [Event.printMessage "Unable to fetch inflation and/or interest rate data"]

/-- The currency-pair fetch of a run fails: the download raised or returned
fewer than 2 rows (src/main.py lines 65-73). -/
def currencyFetchFails (e : Env) : Prop :=
  e.usdtry = none ∨ ∃ xs, e.usdtry = some xs ∧ xs.length < 2

/-- An equity evaluation succeeds: its download returned at least 2 rows. -/
def evalSucceeds (fetched : Option (List ℝ)) : Prop :=
  ∃ xs, fetched = some xs ∧ 2 ≤ xs.length

/-- All four FRED fetches of a run returned data (src/main.py line 87). -/
def fredFetchesSucceed (e : Env) : Prop :=
  e.turkish_inflation ≠ none ∧ e.us_inflation ≠ none ∧
    e.turkish_interest ≠ none ∧ e.us_interest ≠ none

/-- Unfolding lemma: on a series of at least 2 points the evaluator returns
the triple produced by the formulas of src/main.py lines 33-51. -/
lemma calculate_returns_eq (data : List ℝ) (inv : ℝ) (days : ℤ) (infl ir : ℝ)
    (h : 2 ≤ data.length) :
    calculate_returns (some data) inv days infl ir =
      (some ((data.getLastD 0 - data.headI) / data.headI),
       some (calculate_real_return
         ((1 + (data.getLastD 0 - data.headI) / data.headI) ^
            (1 / ((days : ℝ) / 365.25)) - 1) infl),
       some (inv * (1 + calculate_real_return
         ((1 + (data.getLastD 0 - data.headI) / data.headI) ^
            (1 / ((days : ℝ) / 365.25)) - 1) infl) ^ ((days : ℝ) / 365.25))) := by
  simp only [calculate_returns]
  rw [if_neg (by omega)]

/-- The first component of the evaluator result is present exactly when the
fetch returned at least 2 points. -/
lemma calculate_returns_fst_isSome (fetched : Option (List ℝ)) (inv : ℝ)
    (days : ℤ) (infl ir : ℝ) :
    (calculate_returns fetched inv days infl ir).1.isSome = true ↔
      evalSucceeds fetched := by
  cases fetched with
  | none => simp [calculate_returns, evalSucceeds]
  | some data =>
    by_cases h : data.length < 2
    · simp only [calculate_returns, if_pos h]
      simp [evalSucceeds]
      omega
    · rw [calculate_returns_eq data inv days infl ir (by omega)]
      simp [evalSucceeds]
      omega

end BistSp500

namespace BistSp500

/-- Claim C3: the real-return formula is (1 + nominal) / (1 + inflation) - 1;
hence calculate_real_return 0 0 = 0, and a return fully offset by equal
inflation yields zero real return: calculate_real_return r r = 0 for every
r > -1. -/
theorem real_return_zero_cases :
    calculate_real_return 0 0 = 0 ∧
      ∀ r : ℝ, -1 < r → calculate_real_return r r = 0 := by
  constructor
  · norm_num [calculate_real_return]
  · intro r hr
    have h : (1 : ℝ) + r ≠ 0 := by linarith
    rw [calculate_real_return, div_self h]
    ring

/-- Witness for C3 at r = 1. -/
theorem real_return_zero_cases_witness :
    (-1 : ℝ) < 1 ∧ calculate_real_return 1 1 = 0 :=
  ⟨by norm_num, real_return_zero_cases.2 1 (by norm_num)⟩

/-- Claim C9: the interest-rate argument is accepted but never used: two
runs of the evaluator that differ only in the interest rate produce
identical outputs. -/
theorem interest_rate_unused :
    ∀ (fetched : Option (List ℝ)) (inv : ℝ) (days : ℤ) (infl r1 r2 : ℝ),
      calculate_returns fetched inv days infl r1 =
        calculate_returns fetched inv days infl r2 :=
  fun _ _ _ _ _ _ => rfl

/-- Claim C10: the result triple is all-or-nothing: the evaluator returns
either the failure triple (none, none, none) or three defined values; a
mixed triple never occurs, so checking the first component detects
failure. -/
theorem result_all_or_nothing :
    ∀ (fetched : Option (List ℝ)) (inv : ℝ) (days : ℤ) (infl ir : ℝ),
      calculate_returns fetched inv days infl ir = (none, none, none) ∨
        ∃ a b c : ℝ,
          calculate_returns fetched inv days infl ir = (some a, some b, some c) := by
  intro fetched inv days infl ir
  cases fetched with
  | none => exact Or.inl rfl
  | some data =>
    by_cases h : data.length < 2
    · exact Or.inl (by simp [calculate_returns, if_pos h])
    · exact Or.inr ⟨_, _, _, calculate_returns_eq data inv days infl ir (by omega)⟩

/-- Claim C6: converting an amount to USD with the initial rate and back
with the same rate reproduces it exactly; converting back with a different
final rate never reproduces a nonzero amount (the asymmetry is
intentional).  Rates are exchange rates, hence nonzero. -/
theorem currency_conversion_asymmetry :
    (∀ A r : ℝ, r ≠ 0 → convert_to_try (convert_to_usd A r) r = A) ∧
      ∀ A r f : ℝ, r ≠ 0 → A ≠ 0 → f ≠ r →
        convert_to_try (convert_to_usd A r) f ≠ A := by
  constructor
  · intro A r hr
    rw [convert_to_usd, convert_to_try, div_mul_cancel₀ A hr]
  · intro A r f hr hA hf hEq
    rw [convert_to_usd, convert_to_try, div_mul_eq_mul_div, div_eq_iff hr] at hEq
    exact hf (mul_left_cancel₀ hA hEq)

/-- Witness for C6: a round trip at rate 2 on amount 100, and a failed round
trip with final rate 3. -/
theorem currency_conversion_asymmetry_witness :
    convert_to_try (convert_to_usd 100 2) 2 = 100 ∧
      convert_to_try (convert_to_usd 100 2) 3 ≠ 100 :=
  ⟨currency_conversion_asymmetry.1 100 2 (by norm_num),
   currency_conversion_asymmetry.2 100 2 3 (by norm_num) (by norm_num) (by norm_num)⟩

/-- Claim C1: on every series of at least 2 points with positive prices the
total return (first component of the evaluator result) equals
(last / first) - 1 exactly. -/
theorem total_return_formula :
    ∀ (ps : List ℝ) (inv : ℝ) (days : ℤ) (infl ir : ℝ),
      2 ≤ ps.length → (∀ x ∈ ps, 0 < x) →
      (calculate_returns (some ps) inv days infl ir).1 =
        some (ps.getLastD 0 / ps.headI - 1) := by
  intro ps inv days infl ir hlen hpos
  match ps with
  | [] => simp at hlen
  | a :: t =>
    have ha : (a : ℝ) ≠ 0 := ne_of_gt (hpos a (List.mem_cons_self a t))
    rw [calculate_returns_eq (a :: t) inv days infl ir hlen]
    simp only [List.headI]
    rw [sub_div, div_self ha]

/-- Witness for C1 on the series [100, 150]. -/
theorem total_return_formula_witness :
    (calculate_returns (some [100, 150]) 1000 365 0 0).1 = some (1 / 2 : ℝ) := by
  have h := total_return_formula [100, 150] 1000 365 0 0 (by norm_num)
    (by intro x hx; simp at hx; rcases hx with h | h <;> rw [h] <;> norm_num)
  rw [h]
  norm_num [List.headI, List.getLastD]

/-- On base 3/2 the real power is injective in the exponent, so an exponent
other than 1 never reproduces the base. -/
lemma three_halves_rpow_ne {y : ℝ} (hy : y ≠ 1) : (3 / 2 : ℝ) ^ y ≠ 3 / 2 := by
  have h : (1 : ℝ) < 3 / 2 := by norm_num
  rcases lt_or_gt_of_ne hy with h1 | h1
  · have h2 := (Real.rpow_lt_rpow_left_iff h).mpr h1
    rw [Real.rpow_one] at h2
    exact ne_of_lt h2
  · have h2 := (Real.rpow_lt_rpow_left_iff h).mpr h1
    rw [Real.rpow_one] at h2
    exact ne_of_gt h2

/-- Evaluation of the scenario series [100, 150] with inflation 0 and
investment 1000 at an arbitrary day count. -/
lemma scenario_eval (days : ℤ) :
    calculate_returns (some [100, 150]) 1000 days 0 0 =
      (some (1 / 2),
       some ((3 / 2 : ℝ) ^ ((365.25 : ℝ) / (days : ℝ)) - 1),
       some (1000 * ((3 / 2 : ℝ) ^ ((365.25 : ℝ) / (days : ℝ))) ^ ((days : ℝ) / 365.25))) := by
  rw [calculate_returns_eq [100, 150] 1000 days 0 0 (by norm_num)]
  norm_num [List.headI, List.getLastD, calculate_real_return, one_div_div]

end BistSp500

namespace BistSp500

/-- Claim C4 (amended): the evaluator signals failure exactly when the fetch
raised or the series has fewer than 2 points; in particular a single data
point yields the failure triple.  There is no guard on the sign of the
duration: a date range with end before start does not trigger failure (see
the counterexample theorem). -/
theorem failure_iff_insufficient_data :
    (∀ (inv : ℝ) (days : ℤ) (infl ir : ℝ),
        calculate_returns none inv days infl ir = (none, none, none)) ∧
      ∀ (ps : List ℝ) (inv : ℝ) (days : ℤ) (infl ir : ℝ),
        calculate_returns (some ps) inv days infl ir = (none, none, none) ↔
          ps.length < 2 := by
  refine ⟨fun _ _ _ _ => rfl, ?_⟩
  intro ps inv days infl ir
  by_cases h : ps.length < 2
  · simp [calculate_returns, if_pos h, h]
  · rw [calculate_returns_eq ps inv days infl ir (by omega)]
    simp [h]

/-- Counterexample for C4 as stated: for the 2-point series [100, 150] and a
date range whose end is 365 days before its start the duration in years is
negative, yet the evaluator returns a numeric result instead of a failure
signal. -/
theorem negative_years_no_failure :
    ((-365 : ℤ) : ℝ) / 365.25 ≤ 0 ∧
      (calculate_returns (some [100, 150]) 1000 (-365) 0 0).1 ≠ none := by
  constructor
  · norm_num
  · rw [calculate_returns_eq [100, 150] 1000 (-365) 0 0 (by norm_num)]
    simp

/-- Claim C2 (amended): the evaluator computes years = days / 365.25,
annualReturn = (1 + totalReturn) ^ (1 / years) - 1, realAnnualReturn by the
real-return formula, and finalValue = investment * (1 + realAnnualReturn) ^
years.  No integer day count makes years exactly 1; for the series
[100, 150] over one calendar year (365 days) with inflation 0 and
investment 1000 it returns totalReturn = 1/2 and finalValue = 1500 exactly,
but realAnnualReturn = (3/2) ^ (365.25/365) - 1, strictly above 1/2. -/
theorem returns_formulas_and_one_year_scenario :
    (∀ (ps : List ℝ) (inv : ℝ) (days : ℤ) (infl ir : ℝ), 2 ≤ ps.length →
        calculate_returns (some ps) inv days infl ir =
          (some ((ps.getLastD 0 - ps.headI) / ps.headI),
           some (calculate_real_return
             ((1 + (ps.getLastD 0 - ps.headI) / ps.headI) ^
                (1 / ((days : ℝ) / 365.25)) - 1) infl),
           some (inv * (1 + calculate_real_return
             ((1 + (ps.getLastD 0 - ps.headI) / ps.headI) ^
                (1 / ((days : ℝ) / 365.25)) - 1) infl) ^ ((days : ℝ) / 365.25)))) ∧
      (∀ days : ℤ, (days : ℝ) / 365.25 ≠ 1) ∧
      calculate_returns (some [100, 150]) 1000 365 0 0 =
        (some (1 / 2), some ((3 / 2 : ℝ) ^ ((365.25 : ℝ) / 365) - 1), some 1500) ∧
      (1 / 2 : ℝ) < (3 / 2 : ℝ) ^ ((365.25 : ℝ) / 365) - 1 := by
  refine ⟨fun ps inv days infl ir h => calculate_returns_eq ps inv days infl ir h,
    ?_, ?_, ?_⟩
  · intro d hd
    rw [div_eq_iff (by norm_num : (365.25 : ℝ) ≠ 0), one_mul] at hd
    have h4 : ((4 * d : ℤ) : ℝ) = 1461 := by push_cast; linarith
    have h5 : (4 * d : ℤ) = 1461 := by exact_mod_cast h4
    omega
  · have h := scenario_eval 365
    push_cast at h
    rw [h]
    have hbase : (0 : ℝ) ≤ 3 / 2 := by norm_num
    rw [← Real.rpow_mul hbase]
    norm_num
  · have hlt := (Real.rpow_lt_rpow_left_iff (by norm_num : (1 : ℝ) < 3 / 2)).mpr
      (by norm_num : (1 : ℝ) < 365.25 / 365)
    rw [Real.rpow_one] at hlt
    linarith

/-- Witness for C2: the general formula conjunct applied to the series
[2, 8] over 730 days. -/
theorem returns_formulas_witness :
    (calculate_returns (some [2, 8]) 500 730 0 0).1 = some ((8 - 2) / 2 : ℝ) := by
  have h := returns_formulas_and_one_year_scenario.1 [2, 8] 500 730 0 0 (by norm_num)
  rw [h]
  norm_num [List.headI, List.getLastD]

/-- Counterexample for C2 as stated: over one calendar year (365 days, and
likewise 366 for a leap year) the returned realAnnualReturn is not 1/2,
because years = days / 365.25 is not exactly 1. -/
theorem one_year_scenario_not_half :
    (calculate_returns (some [100, 150]) 1000 365 0 0).2.1 ≠ some (1 / 2 : ℝ) ∧
      (calculate_returns (some [100, 150]) 1000 366 0 0).2.1 ≠ some (1 / 2 : ℝ) := by
  constructor
  · have h := scenario_eval 365
    push_cast at h
    rw [h]
    simp only [ne_eq, Option.some.injEq]
    intro hEq
    exact three_halves_rpow_ne (by norm_num : (365.25 : ℝ) / 365 ≠ 1) (by linarith)
  · have h := scenario_eval 366
    push_cast at h
    rw [h]
    simp only [ne_eq, Option.some.injEq]
    intro hEq
    exact three_halves_rpow_ne (by norm_num : (365.25 : ℝ) / 366 ≠ 1) (by linarith)

/-- The pct_change series of an n-point series has n - 1 entries. -/
lemma pct_changes_length (xs : List ℝ) : (pct_changes xs).length = xs.length - 1 := by
  simp [pct_changes]

/-- Claim C5: inflation aggregation is the mean of the period-over-period
relative changes times 12, interest aggregation is the mean level divided by
100; on [100, 101, 102] the result is the mean of the two successive
relative changes times 12. -/
theorem inflation_interest_aggregation :
    (∀ xs : List ℝ, 2 ≤ xs.length →
        aggregate_inflation xs = (pct_changes xs).sum / ((xs.length : ℝ) - 1) * 12) ∧
      (∀ xs : List ℝ, aggregate_interest xs = xs.sum / (xs.length : ℝ) / 100) ∧
      pct_changes [100, 101, 102] = [(101 : ℝ) / 100 - 1, (102 : ℝ) / 101 - 1] ∧
      aggregate_inflation [100, 101, 102] =
        (((101 : ℝ) / 100 - 1) + ((102 : ℝ) / 101 - 1)) / 2 * 12 := by
  refine ⟨?_, fun xs => rfl, ?_, ?_⟩
  · intro xs h
    rw [aggregate_inflation, listMean, pct_changes_length,
      Nat.cast_sub (by omega), Nat.cast_one]
  · norm_num [pct_changes]
  · norm_num [aggregate_inflation, listMean, pct_changes]

/-- Witness for C5 on the series [100, 101, 102]. -/
theorem inflation_interest_aggregation_witness :
    aggregate_inflation [100, 101, 102] =
      (pct_changes [100, 101, 102]).sum / ((3 : ℝ) - 1) * 12 := by
  have h := inflation_interest_aggregation.1 [100, 101, 102] (by norm_num)
  simpa using h

/-- Claim C7: in every run whose currency-pair fetch fails (raised download
or fewer than 2 points) no FRED economic-series fetch occurs: the run
aborts before the economic fetches. -/
theorem currency_failfast :
    ∀ e : Env, currencyFetchFails e → ∀ s, Event.fetchFred s ∉ mainTrace e := by
  intro e hf s
  rcases hf with h | ⟨xs, hxs, hlen⟩
  · simp [mainTrace, h]
  · simp [mainTrace, hxs, if_pos hlen]

/-- Witness for C7: a run whose currency download raised performs no FRED
fetch. -/
theorem currency_failfast_witness :
    Event.fetchFred "CPIAUCSL" ∉
      mainTrace ⟨none, none, none, none, none, none, none, 0, 0⟩ :=
  currency_failfast ⟨none, none, none, none, none, none, none, 0, 0⟩
    (Or.inl rfl) "CPIAUCSL"

/-- Claim C8: no partial report.  The results (and the comparison chart)
are presented exactly when the currency fetch, all four FRED fetches and
both equity evaluations succeed; whenever at least one equity evaluation
fails nothing is presented, and when the run reaches the calculation stage
and an evaluation fails, the human-readable error message is printed
instead. -/
theorem no_partial_report :
    ∀ e : Env,
      ((Event.presentResults ∈ mainTrace e ∧ Event.showChart ∈ mainTrace e) ↔
        ¬currencyFetchFails e ∧ fredFetchesSucceed e ∧
          evalSucceeds e.bist ∧ evalSucceeds e.sp500) ∧
      (¬(evalSucceeds e.bist ∧ evalSucceeds e.sp500) →
        Event.presentResults ∉ mainTrace e) ∧
      (¬currencyFetchFails e → fredFetchesSucceed e →
        ¬(evalSucceeds e.bist ∧ evalSucceeds e.sp500) →
        Event.printMessage "An error occurred during the calculations." ∈ mainTrace e) := by
  rintro ⟨u, ti, ui, tir, uir, bist, sp, inv, days⟩
  cases u with
  | none =>
    refine ⟨?_, ?_, ?_⟩
    · simp [mainTrace, currencyFetchFails]
    · intro _; simp [mainTrace]
    · intro hc; exact absurd (Or.inl rfl) hc
  | some xs =>
    by_cases hx : xs.length < 2
    · refine ⟨?_, ?_, ?_⟩
      · simp [mainTrace, if_pos hx, currencyFetchFails, hx]
      · intro _; simp [mainTrace, if_pos hx]
      · intro hc; exact absurd (Or.inr ⟨xs, rfl, hx⟩) hc
    · cases ti with
      | none =>
        refine ⟨?_, ?_, ?_⟩
        · simp [mainTrace, if_neg hx, fredFetchesSucceed]
        · intro _; simp [mainTrace, if_neg hx]
        · intro _ hf; exact absurd hf.1 (by simp)
      | some tiv =>
        cases ui with
        | none =>
          refine ⟨?_, ?_, ?_⟩
          · simp [mainTrace, if_neg hx, fredFetchesSucceed]
          · intro _; simp [mainTrace, if_neg hx]
          · intro _ hf; exact absurd hf.2.1 (by simp)
        | some uiv =>
          cases tir with
          | none =>
            refine ⟨?_, ?_, ?_⟩
            · simp [mainTrace, if_neg hx, fredFetchesSucceed]
            · intro _; simp [mainTrace, if_neg hx]
            · intro _ hf; exact absurd hf.2.2.1 (by simp)
          | some tirv =>
            cases uir with
            | none =>
              refine ⟨?_, ?_, ?_⟩
              · simp [mainTrace, if_neg hx, fredFetchesSucceed]
              · intro _; simp [mainTrace, if_neg hx]
              · intro _ hf; exact absurd hf.2.2.2 (by simp)
            | some uirv =>
              by_cases hb : evalSucceeds bist <;> by_cases hs : evalSucceeds sp <;>
                refine ⟨?_, ?_, ?_⟩ <;>
                simp [mainTrace, if_neg hx, currencyFetchFails, fredFetchesSucceed,
                  calculate_returns_fst_isSome, hb, hs, hx]

/-- Witness for C8: a fully successful run presents the results. -/
theorem no_partial_report_witness :
    Event.presentResults ∈
      mainTrace ⟨some [1, 2], some [1, 2], some [1, 2], some [1, 2], some [1, 2],
        some [100, 150], some [100, 150], 1000, 365⟩ :=
  ((no_partial_report ⟨some [1, 2], some [1, 2], some [1, 2], some [1, 2], some [1, 2],
      some [100, 150], some [100, 150], 1000, 365⟩).1.mpr
    ⟨by simp [currencyFetchFails], by simp [fredFetchesSucceed],
     ⟨[100, 150], rfl, by norm_num⟩, ⟨[100, 150], rfl, by norm_num⟩⟩).1

end BistSp500
